import Mathlib

/-!
Shallow embedding of torchrl/data/tensordict/memmap.py (class MemmapTensor
and the free function set_transfer_ownership).

Modelling decisions, each traced to the source:
  * Element values are integers (Val); dtype and device are opaque tags.
  * The filesystem is explicit state: an association list from file names
    (natural numbers standing for temporary-file paths) to flat row-major
    contents, plus a counter supplying fresh names. tempfile
    NamedTemporaryFile gives a fresh path and creates the file; its
    delete-on-close flag is the field file_delete of the handle.
  * np.memmap opened in mode r+ over an existing file reads and writes the
    file content in place; FS.write therefore only updates an existing
    entry, mirroring that r+ needs the file to exist.
  * _load_item materializes with torch.as_tensor(memmap_array, device),
    which aliases the mapped buffer only when the recorded device is the
    host; for an accelerator device it copies. The indexed write in
    MemmapTensor.setitem (source line 346, self materialized then mutated)
    therefore reaches the backing file exactly when the device is the
    host, and lands in a transient device copy otherwise.
  * Python pickling calls reduce, which (source lines 365-369) clears the
    delete flags when transfer_ownership holds and then calls getstate
    (lines 358-363); getstate snapshots the field dict BEFORE overwriting
    the live _has_ownership with the file delete flag, so the snapshot
    carries the old value. setstate (lines 348-356) rebuilds the file
    handle with delete = transfer_ownership AND snapshot _has_ownership.
-/

/-- Scalar element values of the mapped arrays. -/
abbrev Val := Int

/-- Error taxonomy of the Python exceptions the module raises. -/
inductive Err where
  | typeError
  | runtimeError
  | notImplementedError
  | fileNotFoundError
  deriving DecidableEq, Repr

/-- Filesystem state: named files with flat contents, and a fresh-name counter. -/
structure FS where
  files : List (Nat × List Val)
  next : Nat
  deriving DecidableEq, Repr

/-- Look up the content of a file by name. -/
def lookupF : List (Nat × List Val) → Nat → Option (List Val)
  | [], _ => none
  | p :: t, n => if p.1 = n then some p.2 else lookupF t n

/-- Overwrite the content of an existing file; absent names are untouched
(np.memmap mode r+ requires the file to exist). -/
def writeF : List (Nat × List Val) → Nat → List Val → List (Nat × List Val)
  | [], _, _ => []
  | p :: t, n, v => if p.1 = n then (n, v) :: t else p :: writeF t n v

/-- Remove a file by name (delete-on-close of the temporary file). -/
def removeF : List (Nat × List Val) → Nat → List (Nat × List Val)
  | [], _ => []
  | p :: t, n => if p.1 = n then removeF t n else p :: removeF t n

/-- Read a file from the filesystem. -/
def FS.read (fs : FS) (n : Nat) : Option (List Val) :=
  lookupF fs.files n

/-- Overwrite an existing file on the filesystem. -/
def FS.write (fs : FS) (n : Nat) (v : List Val) : FS :=
  { fs with files := writeF fs.files n v }

/-- tempfile.NamedTemporaryFile: create a fresh empty file under a fresh name. -/
def FS.create (fs : FS) : FS :=
  { files := (fs.next, []) :: fs.files, next := fs.next + 1 }

/-- Delete a file from the filesystem. -/
def FS.remove (fs : FS) (n : Nat) : FS :=
  { fs with files := removeF fs.files n }

/-- Device tag 0 stands for the host (cpu); any other tag is an
accelerator device such as a cuda index. -/
def hostDevice : Nat := 0

/-- An in-memory tensor of the external library: flat data plus metadata. -/
structure Tensor where
  data : List Val
  shape : List Nat
  dtype : Nat
  device : Nat
  requires_grad : Bool
  deriving DecidableEq, Repr

/-- The MemmapTensor handle state (source lines 113-126). file_delete models
self.file.delete, the delete-on-close flag of the named temporary file;
has_ownership models the Python field _has_ownership. -/
structure MemmapTensor where
  idx : Option Nat
  filename : Nat
  file_delete : Bool
  shape : List Nat
  dtype : Nat
  device : Nat
  transfer_ownership : Bool
  mode : String
  ndim : Nat
  numel : Nat
  has_ownership : Bool
  deriving DecidableEq, Repr

/-- The pickled state dict produced by getstate: every field of the handle
except the file object and the cached memmap array, which are set to None
(source lines 358-363). -/
structure MMState where
  idx : Option Nat
  filename : Nat
  shape : List Nat
  dtype : Nat
  device : Nat
  transfer_ownership : Bool
  mode : String
  ndim : Nat
  numel : Nat
  has_ownership : Bool
  deriving DecidableEq, Repr

/-- The argument accepted by the MemmapTensor constructor: a torch tensor, a
MemmapTensor, or anything else (rejected with TypeError, source line 102). -/
inductive Elem where
  | tensor (t : Tensor)
  | memmap (m : MemmapTensor)
  | other (s : String)
  deriving DecidableEq

/-- requires_grad of the constructor argument. A MemmapTensor source reaches
requires_grad through the attribute fallback (source lines 286-300), which
materializes with torch.as_tensor and so always reports false. -/
def Elem.requiresGrad : Elem → Bool
  | .tensor t => t.requires_grad
  | .memmap _ => false
  | .other _ => false

/-- MemmapTensor.__init__ (source lines 97-133). Returns the constructed
handle or the raised error, together with the filesystem after the call; on
the two validation errors the filesystem is untouched because both raises
happen before the temporary file is created (lines 102-111 precede 115). -/
def MemmapTensor.init (elem : Elem) (transfer : Bool) (fs : FS) :
    Except Err MemmapTensor × FS :=
  match elem with
  | .other _ => (.error .typeError, fs)
  | .tensor t =>
    if t.requires_grad then (.error .runtimeError, fs)
    else
      let name := fs.next
      let fs1 := fs.create
      let m : MemmapTensor :=
        { idx := none, filename := name, file_delete := true, shape := t.shape,
          dtype := t.dtype, device := t.device, transfer_ownership := transfer,
          mode := "r+", ndim := t.shape.length, numel := t.shape.prod,
          has_ownership := true }
      (.ok m, fs1.write name t.data)
  | .memmap src =>
    let name := fs.next
    let fs1 := fs.create
    match fs1.read src.filename with
    | some c =>
      let m : MemmapTensor :=
        { idx := none, filename := name, file_delete := true, shape := src.shape,
          dtype := src.dtype, device := src.device, transfer_ownership := transfer,
          mode := "r+", ndim := src.shape.length, numel := src.shape.prod,
          has_ownership := true }
      (.ok m, fs1.write name c)
    | none => (.error .fileNotFoundError, fs1)

/-- MemmapTensor._load_item with no index (source lines 173-185): read the
mapped file and present it as a tensor on the recorded device. -/
def MemmapTensor.load_item (m : MemmapTensor) (fs : FS) : Option Tensor :=
  (fs.read m.filename).map (fun data =>
    { data := data, shape := m.shape, dtype := m.dtype, device := m.device,
      requires_grad := false })

/-- MemmapTensor.__getitem__ (source lines 340-342): materialize the full
array, then index it. Indexing is by flat position. -/
def MemmapTensor.getitem (m : MemmapTensor) (fs : FS) (i : Nat) : Option Val :=
  (m.load_item fs).bind (fun t => t.data.get? i)

/-- MemmapTensor.__setitem__ (source lines 344-346): materialize the full
array and assign into it. torch.as_tensor aliases the np.memmap buffer only
when the recorded device is the host, so the assignment lands in the
backing file exactly then; on an accelerator device the materialization is
a copy and the write mutates only that transient copy, leaving the file
unchanged. -/
def MemmapTensor.setitem (m : MemmapTensor) (fs : FS) (i : Nat) (v : Val) : FS :=
  if m.device = hostDevice then
    match fs.read m.filename with
    | some c => fs.write m.filename (c.set i v)
    | none => fs
  else fs

/-- MemmapTensor.copy_ (source lines 251-253): full overwrite of the mapped
content through _save_item. -/
def MemmapTensor.copy_ (m : MemmapTensor) (t : Tensor) (fs : FS) : FS :=
  match fs.read m.filename with
  | some _ => fs.write m.filename t.data
  | none => fs

/-- MemmapTensor.clone (source lines 214-221): a fresh MemmapTensor built
from this one, with the default transfer_ownership. -/
def MemmapTensor.clone (m : MemmapTensor) (fs : FS) : Except Err MemmapTensor × FS :=
  MemmapTensor.init (.memmap m) false fs

/-- MemmapTensor.__del__ (source lines 277-279): closing the named temporary
file deletes the backing file exactly when its delete flag is set. -/
def MemmapTensor.del (m : MemmapTensor) (fs : FS) : FS :=
  if m.file_delete then fs.remove m.filename else fs

/-- MemmapTensor.__getstate__ (source lines 358-363): returns the snapshot
and the handle after the call. The dict is copied before _has_ownership is
overwritten with the file delete flag, so the snapshot keeps the old value. -/
def MemmapTensor.getstate (m : MemmapTensor) : MMState × MemmapTensor :=
  ({ idx := m.idx, filename := m.filename, shape := m.shape, dtype := m.dtype,
     device := m.device, transfer_ownership := m.transfer_ownership,
     mode := m.mode, ndim := m.ndim, numel := m.numel,
     has_ownership := m.has_ownership },
   { m with has_ownership := m.file_delete })

/-- MemmapTensor.__setstate__ (source lines 348-356): rebuild the temporary
file handle over the recorded path with
delete = transfer_ownership AND snapshot _has_ownership, and store that
value back into _has_ownership. -/
def MemmapTensor.setstate (st : MMState) : MemmapTensor :=
  let delete := st.transfer_ownership && st.has_ownership
  { idx := st.idx, filename := st.filename, file_delete := delete,
    shape := st.shape, dtype := st.dtype, device := st.device,
    transfer_ownership := st.transfer_ownership, mode := st.mode,
    ndim := st.ndim, numel := st.numel, has_ownership := delete }

/-- MemmapTensor.__reduce__ (source lines 365-369): when transfer_ownership
holds, clear the delete flags of the live file, then capture state through
getstate as object pickling does. -/
def MemmapTensor.reduce (m : MemmapTensor) : MMState × MemmapTensor :=
  let m1 := if m.transfer_ownership then { m with file_delete := false } else m
  m1.getstate

/-- The operand of MemmapTensor.__eq__ (source lines 281-284): the isinstance
tuple is (MemmapTensor, torch.Tensor, float, int, np.ndarray); pystr stands
for any unsupported type such as a plain string. -/
inductive EqOperand where
  | memmap (m : MemmapTensor)
  | tensor (t : Tensor)
  | scalar (c : Val)
  | nparray (d : List Val)
  | pystr (s : String)
  deriving DecidableEq

/-- MemmapTensor.__eq__ (source lines 281-284): raise NotImplementedError on
an unsupported operand type, otherwise compare the materialized content
elementwise with the operand (itself materialized when it is a
MemmapTensor). -/
def MemmapTensor.eq (m : MemmapTensor) (fs : FS) (other : EqOperand) :
    Except Err (List Bool) :=
  match other with
  | .pystr _ => .error .notImplementedError
  | .memmap m2 =>
    match m.load_item fs, m2.load_item fs with
    | some t1, some t2 =>
        .ok (List.zipWith (fun a b => decide (a = b)) t1.data t2.data)
    | _, _ => .error .fileNotFoundError
  | .tensor t =>
    match m.load_item fs with
    | some t1 => .ok (List.zipWith (fun a b => decide (a = b)) t1.data t.data)
    | none => .error .fileNotFoundError
  | .scalar c =>
    match m.load_item fs with
    | some t1 => .ok (t1.data.map (fun a => decide (a = c)))
    | none => .error .fileNotFoundError
  | .nparray d =>
    match m.load_item fs with
    | some t1 => .ok (List.zipWith (fun a b => decide (a = b)) t1.data d)
    | none => .error .fileNotFoundError

/-- The dynamic argument of set_transfer_ownership: a boolean or some other
Python value (source lines 269-273 check isinstance(value, bool)). -/
inductive PyVal where
  | pybool (b : Bool)
  | pyint (n : Int)
  | pystr (s : String)
  deriving DecidableEq

/-- MemmapTensor.set_transfer_ownership (source lines 255-275): TypeError on
a non-boolean argument, raised before any mutation; otherwise assign the
flag and return the handle. The pair carries the handle after the call and
the raised error, if any. -/
def MemmapTensor.set_transfer_ownership (m : MemmapTensor) (value : PyVal) :
    MemmapTensor × Option Err :=
  match value with
  | .pybool b => ({ m with transfer_ownership := b }, none)
  | _ => (m, some .typeError)

/-- The first argument of the free function set_transfer_ownership: a
MemmapTensor or any other Python object. -/
inductive PyObj where
  | memmap (m : MemmapTensor)
  | other (s : String)
  deriving DecidableEq

/-- Free function set_transfer_ownership (source lines 444-446): delegate to
the method when the argument is a MemmapTensor, otherwise do nothing. -/
def set_transfer_ownership (x : PyObj) (value : PyVal) : PyObj × Option Err :=
  match x with
  | .memmap m =>
    let r := m.set_transfer_ownership value
    (.memmap r.1, r.2)
  | .other s => (.other s, none)

/-! Helper lemmas about the filesystem model. -/

theorem lookupF_writeF_self (l : List (Nat × List Val)) (n : Nat) (v : List Val)
    (h : (lookupF l n).isSome) : lookupF (writeF l n v) n = some v := by
  induction l with
  | nil => simp [lookupF] at h
  | cons p t ih =>
    by_cases hp : p.1 = n
    · simp [lookupF, writeF, hp]
    · simp only [lookupF, writeF, hp, if_false] at h ⊢
      exact ih h

theorem lookupF_writeF_ne (l : List (Nat × List Val)) (n n' : Nat) (v : List Val)
    (h : n ≠ n') : lookupF (writeF l n v) n' = lookupF l n' := by
  induction l with
  | nil => simp [lookupF, writeF]
  | cons p t ih =>
    by_cases hp : p.1 = n
    · have hq : p.1 ≠ n' := by rw [hp]; exact h
      simp [lookupF, writeF, hp, h, hq]
    · by_cases hq : p.1 = n'
      · simp [lookupF, writeF, hp, hq, Ne.symm h]
      · simpa [lookupF, writeF, hp, hq] using ih

theorem lookupF_removeF_self (l : List (Nat × List Val)) (n : Nat) :
    lookupF (removeF l n) n = none := by
  induction l with
  | nil => simp [lookupF, removeF]
  | cons p t ih =>
    by_cases hp : p.1 = n
    · simpa [removeF, hp] using ih
    · simpa [lookupF, removeF, hp] using ih

theorem lookupF_removeF_ne (l : List (Nat × List Val)) (n n' : Nat)
    (h : n ≠ n') : lookupF (removeF l n) n' = lookupF l n' := by
  induction l with
  | nil => simp [lookupF, removeF]
  | cons p t ih =>
    by_cases hp : p.1 = n
    · have hq : p.1 ≠ n' := by rw [hp]; exact h
      simpa [lookupF, removeF, hp, hq, h] using ih
    · by_cases hq : p.1 = n'
      · simp [lookupF, removeF, hp, hq, Ne.symm h]
      · simpa [lookupF, removeF, hp, hq] using ih

theorem FS.read_write_self (fs : FS) (n : Nat) (v c : List Val)
    (h : fs.read n = some c) : (fs.write n v).read n = some v := by
  have : (lookupF fs.files n).isSome := by simp [FS.read] at h; simp [h]
  simpa [FS.read, FS.write] using lookupF_writeF_self fs.files n v this

theorem FS.read_write_ne (fs : FS) (n n' : Nat) (v : List Val) (h : n ≠ n') :
    (fs.write n v).read n' = fs.read n' := by
  simpa [FS.read, FS.write] using lookupF_writeF_ne fs.files n n' v h

theorem FS.read_remove_self (fs : FS) (n : Nat) : (fs.remove n).read n = none := by
  simpa [FS.read, FS.remove] using lookupF_removeF_self fs.files n

theorem FS.read_remove_ne (fs : FS) (n n' : Nat) (h : n ≠ n') :
    (fs.remove n).read n' = fs.read n' := by
  simpa [FS.read, FS.remove] using lookupF_removeF_ne fs.files n n' h

theorem FS.read_create_self (fs : FS) : (fs.create).read fs.next = some [] := by
  simp [FS.read, FS.create, lookupF]

theorem FS.read_create_ne (fs : FS) (n : Nat) (h : n ≠ fs.next) :
    (fs.create).read n = fs.read n := by
  simp [FS.read, FS.create, lookupF, Ne.symm h]

theorem getElem?_set_self_of_lt (l : List Val) (i : Nat) (v : Val)
    (h : i < l.length) : (l.set i v)[i]? = some v := by
  induction l generalizing i with
  | nil => simp at h
  | cons a t ih =>
    cases i with
    | zero => simp
    | succ j => simpa using ih j (by simpa using h)

/-! Concrete sample objects used by the witness theorems. -/

/-- A filesystem holding one backing file, named 0, with content [1, 2, 3]. -/
def fs0 : FS := { files := [(0, [1, 2, 3])], next := 1 }

/-- A live MemmapTensor handle over file 0, as produced by construction. -/
def mm0 : MemmapTensor :=
  { idx := none, filename := 0, file_delete := true, shape := [3], dtype := 0,
    device := 0, transfer_ownership := false, mode := "r+", ndim := 1,
    numel := 3, has_ownership := true }

/-- A sample source tensor. -/
def t0 : Tensor :=
  { data := [4, 5, 6], shape := [3], dtype := 0, device := 0,
    requires_grad := false }

/-- The materialization of mm0 over fs0. -/
def mt0 : Tensor :=
  { data := [1, 2, 3], shape := [3], dtype := 0, device := 0,
    requires_grad := false }

/-- A sample source tensor carrying gradient-tracking metadata. -/
def tg0 : Tensor :=
  { data := [4, 5, 6], shape := [3], dtype := 0, device := 0,
    requires_grad := true }

/-- mm0 with transfer_ownership switched on. -/
def mmT : MemmapTensor := { mm0 with transfer_ownership := true }

/-- mm0 with a non-host recorded device (an accelerator tag). -/
def mmGpu : MemmapTensor := { mm0 with device := 1 }

/-- The handle produced by cloning mm0 over fs0. -/
def clone0 : MemmapTensor :=
  { idx := none, filename := 1, file_delete := true, shape := [3], dtype := 0,
    device := 0, transfer_ownership := false, mode := "r+", ndim := 1,
    numel := 3, has_ownership := true }

/-- The filesystem after cloning mm0 over fs0. -/
def fsClone0 : FS := { files := [(1, [1, 2, 3]), (0, [1, 2, 3])], next := 2 }

/-! Claim theorems. -/

/-- C1: for a handle that currently owns its backing file, serializing
(reduce, which also runs getstate as pickling does) and then deserializing
(setstate) with transfer_ownership set to true yields a deserialized handle
with owns_file true while the original post-serialize handle has owns_file
false; with transfer_ownership false the original stays Owned and the
deserialized handle is not a second owner; and setstate always computes
owns_file as transfer_ownership AND the serialized owns_file flag. -/
theorem C1_ownership_transfer_roundtrip (m : MemmapTensor)
    (hown : m.has_ownership = true) (hdel : m.file_delete = true) :
    ((MemmapTensor.setstate (({ m with transfer_ownership := true } : MemmapTensor).reduce).1).has_ownership = true ∧
      ((({ m with transfer_ownership := true } : MemmapTensor).reduce).2).has_ownership = false ∧
      ((({ m with transfer_ownership := true } : MemmapTensor).reduce).2).file_delete = false) ∧
    (((({ m with transfer_ownership := false } : MemmapTensor).reduce).2).has_ownership = true ∧
      ((({ m with transfer_ownership := false } : MemmapTensor).reduce).2).file_delete = true ∧
      (MemmapTensor.setstate (({ m with transfer_ownership := false } : MemmapTensor).reduce).1).has_ownership = false) ∧
    (∀ st : MMState, (MemmapTensor.setstate st).has_ownership
        = (st.transfer_ownership && st.has_ownership)) := by
  refine ⟨⟨?_, ?_, ?_⟩, ⟨?_, ?_, ?_⟩, fun st => ?_⟩ <;>
    simp [MemmapTensor.reduce, MemmapTensor.getstate, MemmapTensor.setstate,
      hown, hdel]

/-- Witness for C1 at the concrete handle mm0. -/
theorem C1_ownership_transfer_roundtrip_witness :
    (MemmapTensor.setstate (({ mm0 with transfer_ownership := true } : MemmapTensor).reduce).1).has_ownership = true ∧
    ((({ mm0 with transfer_ownership := true } : MemmapTensor).reduce).2).has_ownership = false :=
  ⟨(C1_ownership_transfer_roundtrip mm0 rfl rfl).1.1,
   (C1_ownership_transfer_roundtrip mm0 rfl rfl).1.2.1⟩

/-- C2 counterexample: on a handle whose recorded device is not the host
(here mmGpu, device tag 1, over fs0), an indexed write of 9 at index 1
mutates only the transient device copy; the subsequent read of index 1
returns the old value 2, not the written 9, refuting the claim as stated
for every MemmapTensor. -/
theorem C2_write_then_read_counterexample :
    mmGpu.getitem (mmGpu.setitem fs0 1 9) 1 = some 2 ∧
    mmGpu.getitem (mmGpu.setitem fs0 1 9) 1 ≠ some 9 := by
  refine ⟨rfl, ?_⟩
  decide

/-- C2 (amended): a full overwrite through copy_, which writes into the
mapping directly, followed by a read of the same index returns the written
value on every device; an indexed write through setitem followed by a read
of the same index returns the written value when the recorded device of
the handle is the host. -/
theorem C2_write_then_read_host (m : MemmapTensor) (fs : FS) (t : Tensor)
    (c : List Val) (i : Nat) (v : Val) (hm : fs.read m.filename = some c) :
    m.getitem (m.copy_ t fs) i = t.data.get? i ∧
    (m.device = hostDevice → i < c.length →
      m.getitem (m.setitem fs i v) i = some v) := by
  constructor
  · simp [MemmapTensor.copy_, hm, MemmapTensor.getitem, MemmapTensor.load_item,
      FS.read_write_self fs m.filename t.data c hm]
  · intro hdev hi
    simp [MemmapTensor.setitem, hdev, hm, MemmapTensor.getitem,
      MemmapTensor.load_item,
      FS.read_write_self fs m.filename (c.set i v) c hm,
      getElem?_set_self_of_lt c i v hi]

/-- Witness for the amended C2 at the host handle mm0 over fs0. -/
theorem C2_write_then_read_host_witness :
    mm0.getitem (mm0.copy_ t0 fs0) 1 = t0.data.get? 1 ∧
    mm0.getitem (mm0.setitem fs0 1 9) 1 = some 9 :=
  ⟨(C2_write_then_read_host mm0 fs0 t0 [1, 2, 3] 1 9 rfl).1,
   (C2_write_then_read_host mm0 fs0 t0 [1, 2, 3] 1 9 rfl).2 rfl (by decide)⟩

/-- C3: destroying a handle whose owns_file flag is true removes its backing
file; destroying one whose owns_file flag is false leaves the backing file
present. The hypothesis records that on a live handle the delete-on-close
flag of the temporary file agrees with _has_ownership, which holds on every
handle the module produces. -/
theorem C3_del_deletes_iff_owner (m : MemmapTensor) (fs : FS) (c : List Val)
    (hsync : m.file_delete = m.has_ownership)
    (hfile : fs.read m.filename = some c) :
    (m.has_ownership = true → (m.del fs).read m.filename = none) ∧
    (m.has_ownership = false → (m.del fs).read m.filename = some c) := by
  constructor
  · intro h
    simp [MemmapTensor.del, hsync, h, FS.read_remove_self]
  · intro h
    simp [MemmapTensor.del, hsync, h, hfile]

/-- Witness for C3 at mm0 over fs0: the owning handle deletes its file. -/
theorem C3_del_deletes_iff_owner_witness :
    (mm0.del fs0).read mm0.filename = none :=
  (C3_del_deletes_iff_owner mm0 fs0 [1, 2, 3] rfl rfl).1 rfl

/-- C4: constructing a MemmapTensor from a tensor without gradient tracking
succeeds, and materializing it yields exactly the source data with the same
shape and dtype. -/
theorem C4_construct_materialize_roundtrip (t : Tensor) (fs : FS)
    (h : t.requires_grad = false) :
    (MemmapTensor.init (.tensor t) false fs).1.map
        (fun m => m.load_item (MemmapTensor.init (.tensor t) false fs).2)
      = .ok (some { data := t.data, shape := t.shape, dtype := t.dtype,
                    device := t.device, requires_grad := false }) := by
  have hc : (fs.create).read fs.next = some [] := FS.read_create_self fs
  have hw : ((fs.create).write fs.next t.data).read fs.next = some t.data :=
    FS.read_write_self fs.create fs.next t.data [] hc
  simp [MemmapTensor.init, h, Except.map, MemmapTensor.load_item, hw]

/-- Witness for C4 at the concrete tensor t0 over fs0. -/
theorem C4_construct_materialize_roundtrip_witness :
    (MemmapTensor.init (.tensor t0) false fs0).1.map
        (fun m => m.load_item (MemmapTensor.init (.tensor t0) false fs0).2)
      = .ok (some { data := t0.data, shape := t0.shape, dtype := t0.dtype,
                    device := t0.device, requires_grad := false }) :=
  C4_construct_materialize_roundtrip t0 fs0 rfl

/-- C5: cloning produces a handle over a distinct backing path whose initial
content equals the content of the source, and mutation is independent in
both directions: an indexed write into the clone leaves the content of the
source file unchanged, and an indexed write into the source leaves the
content of the clone file unchanged. The freshness hypothesis states that
the source file name was issued by the fresh-name counter. -/
theorem C5_clone_distinct_independent (m m' : MemmapTensor) (fs fs' : FS)
    (c : List Val) (hm : fs.read m.filename = some c)
    (hlt : m.filename < fs.next)
    (hclone : m.clone fs = (.ok m', fs')) :
    m'.filename ≠ m.filename ∧
    fs'.read m'.filename = some c ∧
    fs'.read m.filename = some c ∧
    (∀ i v, (m'.setitem fs' i v).read m.filename = fs'.read m.filename) ∧
    (∀ i v, (m.setitem fs' i v).read m'.filename = fs'.read m'.filename) := by
  have hne : m.filename ≠ fs.next := Nat.ne_of_lt hlt
  have h1 : (fs.create).read m.filename = some c := by
    rw [FS.read_create_ne fs m.filename hne]; exact hm
  have hcl : m.clone fs =
      (.ok { idx := none, filename := fs.next, file_delete := true,
             shape := m.shape, dtype := m.dtype, device := m.device,
             transfer_ownership := false, mode := "r+",
             ndim := m.shape.length, numel := m.shape.prod,
             has_ownership := true },
       (fs.create).write fs.next c) := by
    simp [MemmapTensor.clone, MemmapTensor.init, h1]
  have h2 := hcl.symm.trans hclone
  rw [Prod.mk.injEq] at h2
  obtain ⟨h2a, h2b⟩ := h2
  injection h2a with hh
  subst hh
  subst h2b
  have hA0 : ((fs.create).write fs.next c).read fs.next = some c :=
    FS.read_write_self fs.create fs.next c [] (FS.read_create_self fs)
  have hA1 : ((fs.create).write fs.next c).read m.filename = some c := by
    rw [FS.read_write_ne fs.create fs.next m.filename c (Ne.symm hne)]; exact h1
  refine ⟨Ne.symm hne, hA0, hA1, fun i v => ?_, fun i v => ?_⟩
  · by_cases hd : m.device = hostDevice
    · simp only [MemmapTensor.setitem, hd, if_true, hA0]
      exact FS.read_write_ne _ fs.next m.filename _ (Ne.symm hne)
    · simp only [MemmapTensor.setitem, hd, if_false]
  · by_cases hd : m.device = hostDevice
    · simp only [MemmapTensor.setitem, hd, if_true, hA1]
      exact FS.read_write_ne _ m.filename fs.next _ hne
    · simp only [MemmapTensor.setitem, hd, if_false]

/-- Witness for C5: cloning mm0 over fs0 yields clone0 over fsClone0, and
the two files mutate independently. -/
theorem C5_clone_distinct_independent_witness :
    clone0.filename ≠ mm0.filename ∧
    fsClone0.read clone0.filename = some [1, 2, 3] ∧
    (clone0.setitem fsClone0 0 9).read mm0.filename = fsClone0.read mm0.filename ∧
    (mm0.setitem fsClone0 0 9).read clone0.filename = fsClone0.read clone0.filename := by
  have h := C5_clone_distinct_independent mm0 clone0 fs0 fsClone0 [1, 2, 3]
    rfl (by decide) rfl
  exact ⟨h.1, h.2.1, h.2.2.2.1 0 9, h.2.2.2.2 0 9⟩

/-- C6 counterexample: at the concrete handle mm0 over fs0, equality
comparison against a plain string raises NotImplementedError, not the
TypeError the claim states. -/
theorem C6_eq_unsupported_counterexample :
    mm0.eq fs0 (.pystr "abc") = .error .notImplementedError ∧
    mm0.eq fs0 (.pystr "abc") ≠ .error .typeError := by
  refine ⟨rfl, fun h => ?_⟩
  simp only [MemmapTensor.eq] at h
  injection h with h2
  exact Err.noConfusion h2

/-- C6 (amended): equality comparison against an operand that is not a
MemmapTensor, a tensor, a numeric scalar or an external array raises
NotImplementedError; against a supported operand it compares materialized
content elementwise. -/
theorem C6_eq_dispatch (m m2 : MemmapTensor) (fs : FS) (s : String)
    (t : Tensor) (d : List Val) (k : Val) (mt mt2 : Tensor)
    (h1 : m.load_item fs = some mt) (h2 : m2.load_item fs = some mt2) :
    m.eq fs (.pystr s) = .error .notImplementedError ∧
    m.eq fs (.tensor t) = .ok (List.zipWith (fun a b => decide (a = b)) mt.data t.data) ∧
    m.eq fs (.nparray d) = .ok (List.zipWith (fun a b => decide (a = b)) mt.data d) ∧
    m.eq fs (.scalar k) = .ok (mt.data.map (fun a => decide (a = k))) ∧
    m.eq fs (.memmap m2) = .ok (List.zipWith (fun a b => decide (a = b)) mt.data mt2.data) := by
  refine ⟨rfl, ?_, ?_, ?_, ?_⟩ <;> simp [MemmapTensor.eq, h1, h2]

/-- Witness for the amended C6 at mm0 over fs0. -/
theorem C6_eq_dispatch_witness :
    mm0.eq fs0 (.tensor t0)
      = .ok (List.zipWith (fun a b => decide (a = b)) mt0.data t0.data) ∧
    mm0.eq fs0 (.scalar 2) = .ok (mt0.data.map (fun a => decide (a = 2))) :=
  ⟨(C6_eq_dispatch mm0 mm0 fs0 "abc" t0 [7] 2 mt0 mt0 rfl rfl).2.1,
   (C6_eq_dispatch mm0 mm0 fs0 "abc" t0 [7] 2 mt0 mt0 rfl rfl).2.2.2.1⟩

/-- C7: construction raises TypeError on an unrecognized source and the
gradient-tracking RuntimeError on a source with requires_grad, and in both
cases the filesystem is unchanged: no backing file is created, because both
raises precede the creation of the temporary file. -/
theorem C7_construction_validation (s : String) (t : Tensor) (b : Bool)
    (fs : FS) (hg : t.requires_grad = true) :
    MemmapTensor.init (.other s) b fs = (.error .typeError, fs) ∧
    MemmapTensor.init (.tensor t) b fs = (.error .runtimeError, fs) := by
  constructor
  · rfl
  · simp [MemmapTensor.init, hg]

/-- Witness for C7 at concrete inputs over fs0. -/
theorem C7_construction_validation_witness :
    MemmapTensor.init (.other "abc") false fs0 = (.error .typeError, fs0) ∧
    MemmapTensor.init (.tensor tg0) false fs0 = (.error .runtimeError, fs0) :=
  C7_construction_validation "abc" tg0 false fs0 rfl

/-- C8: capturing serialization state mutates the live handle: getstate
overwrites _has_ownership with the current delete-on-close flag of the
file, and when transfer_ownership is set, reduce clears the delete flag, so
after serialization alone the serializing handle neither deletes on close
nor reports ownership, whether or not the bytes are ever deserialized. -/
theorem C8_serialize_side_effects (m : MemmapTensor) :
    (m.getstate).2.has_ownership = m.file_delete ∧
    (m.transfer_ownership = true →
      (m.reduce).2.file_delete = false ∧ (m.reduce).2.has_ownership = false) := by
  refine ⟨rfl, fun h => ?_⟩
  simp [MemmapTensor.reduce, MemmapTensor.getstate, h]

/-- Witness for C8 at the concrete handle mmT. -/
theorem C8_serialize_side_effects_witness :
    (mmT.getstate).2.has_ownership = mmT.file_delete ∧
    (mmT.reduce).2.file_delete = false :=
  ⟨(C8_serialize_side_effects mmT).1,
   ((C8_serialize_side_effects mmT).2 rfl).1⟩

/-- C9: the method set_transfer_ownership raises TypeError on a non-boolean
argument and leaves the handle unchanged; on a boolean it sets exactly the
transfer_ownership field, keeps every other field, and raises nothing. -/
theorem C9_set_transfer_ownership_method (m : MemmapTensor) (b : Bool)
    (n : Int) (s : String) :
    m.set_transfer_ownership (.pybool b) = ({ m with transfer_ownership := b }, none) ∧
    (m.set_transfer_ownership (.pybool b)).1.transfer_ownership = b ∧
    (m.set_transfer_ownership (.pybool b)).1.filename = m.filename ∧
    (m.set_transfer_ownership (.pybool b)).1.file_delete = m.file_delete ∧
    (m.set_transfer_ownership (.pybool b)).1.has_ownership = m.has_ownership ∧
    m.set_transfer_ownership (.pyint n) = (m, some .typeError) ∧
    m.set_transfer_ownership (.pystr s) = (m, some .typeError) :=
  ⟨rfl, rfl, rfl, rfl, rfl, rfl, rfl⟩

/-- C10: the free function set_transfer_ownership is a silent no-op on a
non-MemmapTensor first argument, and delegates to the method of the same
name on a MemmapTensor. -/
theorem C10_free_function_noop_or_delegate (s : String) (m : MemmapTensor)
    (v : PyVal) :
    set_transfer_ownership (.other s) v = (.other s, none) ∧
    set_transfer_ownership (.memmap m) v
      = (.memmap (m.set_transfer_ownership v).1, (m.set_transfer_ownership v).2) :=
  ⟨rfl, rfl⟩
